import Mathlib

/-!
Verification of the attention extraction / flattening pipeline and the HTTP
façade of the information_flow backend.

The pipeline (`backend/attention/model.py`, revision 20250309130918) is
embedded with attention weights as rationals, matrices as lists of rows, and
the per-layer raw activations (produced by the external forward pass) as
inputs.  The façade (`backend/attention/api.py`) is embedded as a state
transition on the module-level `model_registry`, with the external model
constructor and the extractor's `process_text` as function parameters.
-/

namespace AttentionFlow

/-- A weight matrix: list of rows, each a list of rational entries. -/
abbrev Matrix2 := List (List ℚ)

/-- Entry `m[i][j]`, with numpy-irrelevant out-of-range reads defaulting to 0
(the embedding only evaluates it in range). -/
def matEntry (m : Matrix2) (i j : Nat) : ℚ :=
  (m.getD i []).getD j 0

/-- One row of `np.tril`: `maskRow i j row` masks the row with row index `i`
whose first element sits at column index `j`, zeroing entries whose column
index exceeds `i`. -/
def maskRow (i j : Nat) : List ℚ → List ℚ
  | [] => []
  | x :: xs => (if i < j then 0 else x) :: maskRow i (j + 1) xs

/-- Rows of `np.tril` starting at row index `i`. -/
def trilAux (i : Nat) : Matrix2 → Matrix2
  | [] => []
  | row :: rest => maskRow i 0 row :: trilAux (i + 1) rest

/-- `np.tril m`: zero every entry strictly above the main diagonal. -/
def tril (m : Matrix2) : Matrix2 :=
  trilAux 0 m

/-- `pattern[1:, 1:]` for one head's matrix: drop the boundary (BOS) row and
column. -/
def trimOne (hm : Matrix2) : Matrix2 :=
  (hm.drop 1).map (fun row => row.drop 1)

/-- `pattern[:, 1:, 1:]` from the `save_pattern` hook: drop the boundary
(BOS) row and column of every head's matrix. -/
def trimPattern (activation : List Matrix2) : List Matrix2 :=
  activation.map trimOne

/-- The `save_pattern` forward hook (model.py lines 45-52): trim the BOS row
and column of every head, then apply `np.tril` to each head's matrix. -/
def save_pattern (activation : List Matrix2) : List Matrix2 :=
  (trimPattern activation).map tril

/-- One entry of the `layerAttentions` list built by
`get_attention_patterns`. -/
structure LayerAttention where
  layer : Nat
  heads : List Matrix2
deriving DecidableEq, Repr

/-- The dictionary returned by `get_attention_patterns`. -/
structure ExtractionResult where
  tokens : List String
  layerAttentions : List LayerAttention
  headTypes : List ((Nat × Nat) × String)
deriving DecidableEq, Repr

/-- `AttentionPatternExtractor.get_attention_patterns` (model.py lines
26-85).  The raw per-layer activations captured by the hooks and the raw
token list (`to_str_tokens`, boundary token included) are inputs; the
external `detect_head` classifier is a function parameter. -/
def get_attention_patterns (n_heads : Nat) (detect_head : Nat → Nat → String)
    (raw_tokens : List String) (rawPatterns : List (List Matrix2)) :
    ExtractionResult :=
  let patterns := rawPatterns.map save_pattern
  { tokens := raw_tokens.drop 1
    layerAttentions := patterns.enum.map (fun p =>
      { layer := p.1
        heads := (List.range n_heads).map (fun h => p.2.getD h []) })
    headTypes := (patterns.enum.map (fun p =>
      (List.range n_heads).map (fun h => ((p.1, h), detect_head p.1 h)))).flatten }

/-- One record of the `attentionPatterns` list (model.py lines 115-123). -/
structure AttentionEdge where
  sourceLayer : Nat
  sourceToken : Nat
  destLayer : Nat
  destToken : Nat
  weight : ℚ
  head : Nat
  headType : String
deriving DecidableEq, Repr

/-- The response envelope built by `process_text` (model.py lines 125-131). -/
structure Envelope where
  numLayers : Nat
  numTokens : Nat
  numHeads : Nat
  tokens : List String
  attentionPatterns : List AttentionEdge
deriving DecidableEq, Repr

/-- Embeds the expression `head_pattern["type"]` of model.py line 122:
`head_pattern` is a 2-D float array there, and numpy rejects a string index
into a non-structured array with an IndexError, so the expression raises for
every head pattern. -/
def ndarrayGetStr (m : Matrix2) (key : String) : Except String String :=
  .error "IndexError: only integers, slices and integer or boolean arrays are valid indices"

/-- The weight expression of model.py line 114:
`float(head_pattern[dest_idx, src_idx])` — the matrix convention is
[destination-row, source-column]. -/
def edgeWeight (head_pattern : Matrix2) (src_idx dest_idx : Nat) : ℚ :=
  matEntry head_pattern dest_idx src_idx

/-- One iteration of the innermost loop of `process_text` (model.py lines
113-123): the dictionary literal evaluates its values in order, so the
`headType` lookup raises before the record is appended. -/
def mkEdge (layer head : Nat) (head_pattern : Matrix2) (src_idx dest_idx : Nat) :
    Except String AttentionEdge := do
  let w := edgeWeight head_pattern src_idx dest_idx
  let ht ← ndarrayGetStr head_pattern "type"
  return { sourceLayer := layer
           sourceToken := src_idx
           destLayer := layer + 1
           destToken := dest_idx
           weight := w
           head := head
           headType := ht }

/-- The four nested loops of `process_text` (model.py lines 105-123):
layers in list order, heads ascending, source token ascending, destination
token ascending; the first raised exception aborts the whole loop. -/
def flattenEdges (n_heads : Nat) (tokens : List String)
    (layerAttentions : List LayerAttention) : Except String (List AttentionEdge) :=
  layerAttentions.foldlM (fun acc layer_data =>
    (List.range n_heads).foldlM (fun acc2 head =>
      let head_pattern := layer_data.heads.getD head []
      (List.range tokens.length).foldlM (fun acc3 src_idx =>
        (List.range tokens.length).foldlM (fun acc4 dest_idx => do
          let e ← mkEdge layer_data.layer head head_pattern src_idx dest_idx
          return acc4 ++ [e]) acc3) acc2) acc) []

/-- `AttentionPatternExtractor.process_text` (model.py lines 87-131). -/
def process_text (n_layers n_heads : Nat) (detect_head : Nat → Nat → String)
    (raw_tokens : List String) (rawPatterns : List (List Matrix2)) :
    Except String Envelope := do
  let result := get_attention_patterns n_heads detect_head raw_tokens rawPatterns
  let aps ← flattenEdges n_heads result.tokens result.layerAttentions
  return { numLayers := n_layers + 1
           numTokens := result.tokens.length
           numHeads := n_heads
           tokens := result.tokens
           attentionPatterns := aps }

/-- A loaded extractor instance; `instanceId` stands for Python object
identity, so that caching and reuse are observable. -/
structure Extractor where
  instanceId : Nat
deriving DecidableEq, Repr

/-- Modelled from the spec: `AVAILABLE_MODELS` lives in
`backend/attention/model.py`, whose current revision is absent from the
sources (the façade imports it with `from .model import AVAILABLE_MODELS`).
The spec describes it as the fixed allow-list of supported model
identifiers, with "gpt2-small" the default; the sample generator enumerates
"gpt2-small" and "pythia-2.8b" as the available models. -/
def AVAILABLE_MODELS : List String :=
  ["gpt2-small", "pythia-2.8b"]

/-- The module-level `model_registry` dictionary of api.py (insertion
ordered, as Python dictionaries are). -/
abbrev Registry := List (String × Extractor)

/-- Python `model_name in model_registry`. -/
def dictHas (r : Registry) (k : String) : Bool :=
  r.any (fun p => p.1 = k)

/-- Python `model_registry[model_name]` as an optional lookup. -/
def dictGet (r : Registry) (k : String) : Option Extractor :=
  (r.find? (fun p => p.1 = k)).map (fun p => p.2)

/-- Module import of api.py (lines 31-38): the default model "gpt2-small" is
constructed eagerly; a failure is re-raised, so the process does not start. -/
def init_registry (load : String → Except String Extractor) :
    Except String Registry :=
  match load "gpt2-small" with
  | .ok m => .ok [("gpt2-small", m)]
  | .error e => .error e

/-- An HTTPException as raised by the endpoint. -/
structure HTTPError where
  status : Nat
  detail : String
deriving DecidableEq, Repr

/-- The 200 body of `/process`: the extractor's result with `model_name`
added (api.py line 78). -/
structure ProcResponse where
  result : Envelope
  model_name : String
deriving DecidableEq, Repr

/-- The 400 detail of api.py line 63; Python renders the `None` model name
as the text "None" inside the f-string. -/
def unsupportedDetail (model_name : Option String) : String :=
  "Model '" ++ (match model_name with | some s => s | none => "None") ++
    "' not supported. Available models: " ++ String.intercalate ", " AVAILABLE_MODELS

/-- The try/except around the extractor call (api.py lines 75-83). -/
def wrapProc (name : String) (r : Except String Envelope) :
    Except HTTPError ProcResponse :=
  match r with
  | .ok env => .ok { result := env, model_name := name }
  | .error e => .error { status := 500, detail := e }

/-- The `/process` endpoint (api.py lines 44-83) after request parsing:
validate the name against the allow-list, load and cache the extractor when
absent, then run it.  `load` is the external `AttentionPatternExtractor`
constructor and `proc` the loaded extractor's `process_text`. -/
def process_endpoint (load : String → Except String Extractor)
    (proc : Extractor → String → Except String Envelope)
    (registry : Registry) (text : String) (model_name : Option String) :
    Registry × Except HTTPError ProcResponse :=
  match model_name with
  | none => (registry, .error { status := 400, detail := unsupportedDetail none })
  | some name =>
    if AVAILABLE_MODELS.contains name = false then
      (registry, .error { status := 400, detail := unsupportedDetail (some name) })
    else
      match (if dictHas registry name then .ok registry
             else match load name with
                  | .ok m => .ok (registry ++ [(name, m)])
                  | .error e =>
                    .error ⟨500, "Failed to load model '" ++ name ++ "': " ++ e⟩
             : Except HTTPError Registry) with
      | .error he => (registry, .error he)
      | .ok registry2 =>
        (registry2,
          match dictGet registry2 name with
          | none => .error { status := 500, detail := "KeyError: " ++ name }
          | some m => wrapProc name (proc m text))

/-- The request body of `/process` before pydantic validation: the outer
`Option` is field presence, the inner one JSON null versus a string. -/
structure RawRequest where
  text : String
  model_name_field : Option (Option String)
deriving DecidableEq, Repr

/-- Pydantic resolution of `model_name: Optional[str] = "gpt2-small"`
(api.py line 42): an absent field takes the default, an explicit JSON null
stays None, a string stays itself. -/
def resolveModelName : Option (Option String) → Option String
  | none => some "gpt2-small"
  | some v => v

/-- The endpoint on a raw request body. -/
def handle_process (load : String → Except String Extractor)
    (proc : Extractor → String → Except String Envelope)
    (registry : Registry) (req : RawRequest) :
    Registry × Except HTTPError ProcResponse :=
  process_endpoint load proc registry req.text (resolveModelName req.model_name_field)

/-- The registry after a sequence of `/process` requests. -/
def run_requests (load : String → Except String Extractor)
    (proc : Extractor → String → Except String Envelope)
    (registry : Registry) (reqs : List RawRequest) : Registry :=
  reqs.foldl (fun r q => (handle_process load proc r q).1) registry

/-! Helper lemmas about the masking and trimming primitives. -/

theorem maskRow_getD (row : List ℚ) (i j k : Nat) :
    (maskRow i j row).getD k 0 = if i < j + k then 0 else row.getD k 0 := by
  induction row generalizing j k with
  | nil => simp [maskRow, List.getD]
  | cons x xs ih =>
    cases k with
    | zero => simp [maskRow, List.getD]
    | succ k =>
      simp only [maskRow, List.getD_cons_succ]
      rw [ih (j + 1) k]
      have : j + 1 + k = j + (k + 1) := by omega
      rw [this]

theorem maskRow_length (row : List ℚ) (i j : Nat) :
    (maskRow i j row).length = row.length := by
  induction row generalizing j with
  | nil => rfl
  | cons x xs ih => simp [maskRow, ih]

theorem trilAux_getD (m : Matrix2) (i d s : Nat) :
    ((trilAux i m).getD d []).getD s 0 =
      if i + d < s then 0 else (m.getD d []).getD s 0 := by
  induction m generalizing i d with
  | nil => simp [trilAux, List.getD]
  | cons row rest ih =>
    cases d with
    | zero =>
      simp only [trilAux, List.getD_cons_zero, Nat.add_zero]
      rw [maskRow_getD row i 0 s, Nat.zero_add]
    | succ d =>
      simp only [trilAux, List.getD_cons_succ]
      rw [ih (i + 1) d]
      have : i + 1 + d = i + (d + 1) := by omega
      rw [this]

theorem matEntry_tril (m : Matrix2) (d s : Nat) :
    matEntry (tril m) d s = if d < s then 0 else matEntry m d s := by
  simpa [matEntry, tril] using trilAux_getD m 0 d s

theorem mem_trilAux (m : Matrix2) (i : Nat) (r : List ℚ)
    (hr : r ∈ trilAux i m) : ∃ j row, row ∈ m ∧ r = maskRow j 0 row := by
  induction m generalizing i with
  | nil => simp [trilAux] at hr
  | cons row rest ih =>
    simp only [trilAux, List.mem_cons] at hr
    rcases hr with h | h
    · exact ⟨i, row, List.mem_cons_self _ _, h⟩
    · obtain ⟨j, row2, hmem, heq⟩ := ih (i + 1) h
      exact ⟨j, row2, List.mem_cons_of_mem _ hmem, heq⟩

theorem trilAux_length (m : Matrix2) (i : Nat) :
    (trilAux i m).length = m.length := by
  induction m generalizing i with
  | nil => rfl
  | cons row rest ih => simp [trilAux, ih]

theorem tril_length (m : Matrix2) : (tril m).length = m.length :=
  trilAux_length m 0

theorem tril_nil : tril [] = [] := rfl

theorem trimOne_nil : trimOne [] = [] := rfl

theorem getD_map_eq {α β : Type} (l : List α) (f : α → β) (d : α) (d2 : β)
    (hfd : f d = d2) (i : Nat) :
    (l.map f).getD i d2 = f (l.getD i d) := by
  induction l generalizing i with
  | nil => simp [List.getD, hfd.symm]
  | cons x xs ih =>
    cases i with
    | zero => rfl
    | succ i =>
      simp only [List.map_cons, List.getD_cons_succ]
      exact ih i

/-- C1: for every head matrix produced by the pipeline's `save_pattern` hook
(the per-layer/head pairing before the +1 destLayer offset), the weight the
flattener reads for a source/destination token pair is 0 whenever the
source-token index exceeds the destination-token index — the causal masking
is applied explicitly by the hook itself, regardless of the model's own
masking. -/
theorem c1_causal_masking (activation : List Matrix2) (m : Matrix2)
    (hm : m ∈ save_pattern activation) (src_idx dest_idx : Nat)
    (hgt : dest_idx < src_idx) :
    edgeWeight m src_idx dest_idx = 0 := by
  obtain ⟨t, _, rfl⟩ := List.mem_map.mp hm
  rw [edgeWeight, matEntry_tril, if_pos hgt]

/-- Witness for C1 at a concrete activation. -/
theorem c1_causal_masking_witness :
    [(5 : ℚ), 0] :: [[8, 9]] ∈ save_pattern [[[1, 2, 3], [4, 5, 6], [7, 8, 9]]] ∧
      edgeWeight ([(5 : ℚ), 0] :: [[8, 9]]) 1 0 = 0 :=
  ⟨by decide, c1_causal_masking [[[1, 2, 3], [4, 5, 6], [7, 8, 9]]] _ (by decide) 1 0
    (by decide)⟩

/-- C5: the flattener's weight for a source/destination pair with
`sourceToken ≤ destToken` is exactly the boundary-trimmed attention matrix
entry at [destination row, source column]: the [destination, source] matrix
convention is converted once by `edgeWeight`, and the causal mask leaves the
lower-triangular entries unchanged. -/
theorem c5_weight_convention (activation : List Matrix2) (h src_idx dest_idx : Nat)
    (hle : src_idx ≤ dest_idx) :
    edgeWeight ((save_pattern activation).getD h []) src_idx dest_idx =
      matEntry ((trimPattern activation).getD h []) dest_idx src_idx := by
  rw [edgeWeight, save_pattern, getD_map_eq (trimPattern activation) tril [] [] tril_nil h,
    matEntry_tril, if_neg (by omega)]

/-- Witness for C5 at a concrete activation. -/
theorem c5_weight_convention_witness :
    edgeWeight ((save_pattern [[[1, 2, 3], [4, 5, 6], [7, 8, 9]]]).getD 0 []) 0 1 =
        matEntry ((trimPattern [[[1, 2, 3], [4, 5, 6], [7, 8, 9]]]).getD 0 []) 1 0 ∧
      matEntry ((trimPattern [[[1, 2, 3], [4, 5, 6], [7, 8, 9]]]).getD 0 []) 1 0 = 8 :=
  ⟨c5_weight_convention [[[1, 2, 3], [4, 5, 6], [7, 8, 9]]] 0 0 1 (by decide), by decide⟩

/-- C3: when the tokenizer prepends a synthetic boundary token `b`, the
returned token list is the raw list without it (so `b` does not appear in it
when it occurs nowhere else), every per-head attention matrix loses row 0
and column 0 and is square of size `len(tokens) × len(tokens)`, and any
envelope `process_text` returns reports `numTokens = len(tokens)`. -/
theorem c3_boundary_trim (n_layers n_heads : Nat) (detect_head : Nat → Nat → String)
    (b : String) (rest : List String) (rawPatterns : List (List Matrix2))
    (hb : b ∉ rest)
    (hshape : ∀ lp ∈ rawPatterns, lp.length = n_heads ∧
      ∀ hm ∈ lp, hm.length = rest.length + 1 ∧ ∀ row ∈ hm, row.length = rest.length + 1) :
    (get_attention_patterns n_heads detect_head (b :: rest) rawPatterns).tokens = rest ∧
    b ∉ (get_attention_patterns n_heads detect_head (b :: rest) rawPatterns).tokens ∧
    (∀ la ∈ (get_attention_patterns n_heads detect_head (b :: rest) rawPatterns).layerAttentions,
      ∀ m ∈ la.heads, m.length = rest.length ∧ ∀ row ∈ m, row.length = rest.length) ∧
    (∀ env, process_text n_layers n_heads detect_head (b :: rest) rawPatterns = .ok env →
      env.numTokens = env.tokens.length) := by
  refine ⟨rfl, by simpa using hb, ?_, ?_⟩
  · intro la hla m hmem
    simp only [get_attention_patterns, List.mem_map] at hla
    obtain ⟨p, hp, rfl⟩ := hla
    obtain ⟨idx, pat⟩ := p
    have hp2 : pat ∈ rawPatterns.map save_pattern := by
      have h1 : (rawPatterns.map save_pattern)[idx]? = some pat :=
        List.mem_enum_iff_getElem?.mp hp
      obtain ⟨hl, heq⟩ := List.getElem?_eq_some.mp h1
      exact heq ▸ List.getElem_mem hl
    obtain ⟨lp, hlp, rfl⟩ := List.mem_map.mp hp2
    simp only [List.mem_map, List.mem_range] at hmem
    obtain ⟨h2, hh2, rfl⟩ := hmem
    obtain ⟨hlen, hhm⟩ := hshape lp hlp
    have hh2lt : h2 < lp.length := by omega
    rw [save_pattern, getD_map_eq (trimPattern lp) tril [] [] tril_nil h2,
      trimPattern, getD_map_eq lp trimOne [] [] trimOne_nil h2]
    have hmem2 : lp.getD h2 [] ∈ lp := by
      rw [List.getD_eq_getElem lp [] hh2lt]
      exact List.getElem_mem hh2lt
    obtain ⟨hmlen, hrows⟩ := hhm (lp.getD h2 []) hmem2
    constructor
    · rw [tril_length]
      have hlen2 : (trimOne (lp.getD h2 [])).length = (lp.getD h2 []).length - 1 := by
        simp [trimOne]
      rw [hlen2, hmlen]
      omega
    · intro row hrow
      obtain ⟨j, row0, hrow0, rfl⟩ := mem_trilAux _ 0 row hrow
      rw [maskRow_length]
      simp only [trimOne, List.mem_map] at hrow0
      obtain ⟨row1, hrow1, rfl⟩ := hrow0
      have : row1 ∈ lp.getD h2 [] := List.drop_subset 1 _ hrow1
      simp [hrows row1 this]
  · intro env henv
    rw [process_text] at henv
    rcases hfe : flattenEdges n_heads
        (get_attention_patterns n_heads detect_head (b :: rest) rawPatterns).tokens
        (get_attention_patterns n_heads detect_head (b :: rest) rawPatterns).layerAttentions
      with e | aps
    · simp only [hfe, bind, Except.bind] at henv
      exact absurd henv (by simp)
    · simp only [hfe, bind, Except.bind, pure, Except.pure] at henv
      injection henv with h
      subst h
      rfl

/-- Witness for C3 at a concrete one-layer, one-head input. -/
theorem c3_boundary_trim_witness :
    (get_attention_patterns 1 (fun _ _ => "none") ["<bos>", " a"] [[[[1, 0], [(1 : ℚ)/2, 1/2]]]]).tokens = [" a"] ∧
    "<bos>" ∉ (get_attention_patterns 1 (fun _ _ => "none") ["<bos>", " a"] [[[[1, 0], [(1 : ℚ)/2, 1/2]]]]).tokens ∧
    (∀ la ∈ (get_attention_patterns 1 (fun _ _ => "none") ["<bos>", " a"] [[[[1, 0], [(1 : ℚ)/2, 1/2]]]]).layerAttentions,
      ∀ m ∈ la.heads, m.length = [" a"].length ∧ ∀ row ∈ m, row.length = [" a"].length) ∧
    (∀ env, process_text 1 1 (fun _ _ => "none") ["<bos>", " a"] [[[[1, 0], [(1 : ℚ)/2, 1/2]]]] = .ok env →
      env.numTokens = env.tokens.length) :=
  c3_boundary_trim 1 1 (fun _ _ => "none") "<bos>" [" a"] [[[[1, 0], [(1 : ℚ)/2, 1/2]]]]
    (by decide) (by decide)

/-- C2: evaluation of the code at a failing input.  On a text with two
tokens after boundary trimming (one layer, one head), `process_text` raises
the IndexError of the `headType` lookup of model.py line 122 before any edge
is emitted, instead of returning an envelope with
(numLayers - 1) × numHeads × numTokens² edges. -/
theorem c2_flattener_raises :
    process_text 1 1 (fun _ _ => "none") ["<bos>", " a", " b"]
      [[[[1, 0, 0], [0, 1, 0], [0, 0, 1]]]] =
      .error "IndexError: only integers, slices and integer or boolean arrays are valid indices" :=
  rfl

/-- C4: evaluation of the code at a failing input.  With two layers and two
heads over a single trimmed token, `process_text` raises on the very first
(layer, head, source, destination) quadruple, so the loop nest never emits
an ordered edge sequence. -/
theorem c4_flattener_raises :
    process_text 2 2 (fun _ _ => "prev") ["<bos>", " x"]
      [[[[1, 0], [(1 : ℚ)/2, 1/2]], [[1, 0], [(1 : ℚ)/4, 3/4]]],
       [[[1, 0], [0, 1]], [[1, 0], [(3 : ℚ)/5, 2/5]]]] =
      .error "IndexError: only integers, slices and integer or boolean arrays are valid indices" :=
  rfl

/-- C6: evaluation of the code at a failing input.  On an input with a
single token after boundary trimming, `process_text` raises instead of
returning the degenerate numHeads × (numLayers - 1) edges. -/
theorem c6_single_token_raises :
    process_text 1 1 (fun _ _ => "none") ["<|endoftext|>", " hi"]
      [[[[1, 0], [(2 : ℚ)/5, 3/5]]]] =
      .error "IndexError: only integers, slices and integer or boolean arrays are valid indices" :=
  rfl

/-! Helper lemmas about the registry dictionary. -/

theorem dictGet_append_self (r : Registry) (k : String) (m : Extractor)
    (h : dictHas r k = false) : dictGet (r ++ [(k, m)]) k = some m := by
  induction r with
  | nil => simp [dictGet, List.find?]
  | cons x r ih =>
    simp only [dictHas, List.any_cons, Bool.or_eq_false_iff] at h
    obtain ⟨hx, hr⟩ := h
    simp only [List.cons_append, dictGet, List.find?]
    rw [show (decide (x.1 = k)) = false from hx]
    exact ih hr

theorem dictHas_of_dictGet (r : Registry) (k : String) (m : Extractor)
    (h : dictGet r k = some m) : dictHas r k = true := by
  induction r with
  | nil => simp [dictGet] at h
  | cons x r ih =>
    simp only [dictGet, List.find?] at h
    simp only [dictHas, List.any_cons]
    cases hx : decide (x.1 = k) with
    | true => simp [hx]
    | false =>
      rw [hx] at h
      simp only [Bool.false_or]
      exact ih h

/-- C7: a `/process` request naming a model outside the allow-list fails
with HTTP 400, the detail enumerates the supported identifiers, and the
registry is left completely unchanged. -/
theorem c7_unsupported_model (load : String → Except String Extractor)
    (proc : Extractor → String → Except String Envelope)
    (registry : Registry) (text name : String)
    (hname : AVAILABLE_MODELS.contains name = false) :
    process_endpoint load proc registry text (some name) =
      (registry, .error ⟨400, unsupportedDetail (some name)⟩) ∧
    unsupportedDetail (some name) =
      "Model '" ++ name ++ "' not supported. Available models: " ++ "gpt2-small, pythia-2.8b" := by
  constructor
  · have h1 : name ∉ AVAILABLE_MODELS := by simpa using hname
    simp [process_endpoint, h1]
  · rfl

/-- Witness for C7 at the unsupported identifier "not-a-model". -/
theorem c7_unsupported_model_witness :
    process_endpoint (fun _ => .ok ⟨1⟩) (fun _ _ => .error "e") [] "hi" (some "not-a-model") =
      ([], .error ⟨400, unsupportedDetail (some "not-a-model")⟩) ∧
    unsupportedDetail (some "not-a-model") =
      "Model '" ++ "not-a-model" ++ "' not supported. Available models: " ++ "gpt2-small, pythia-2.8b" :=
  c7_unsupported_model (fun _ => .ok ⟨1⟩) (fun _ _ => .error "e") [] "hi" "not-a-model" rfl

/-- C8: first successful load of a supported identifier appends exactly that
instance to the registry; a later request with the identifier cached gives a
result independent of the constructor and reuses the exact cached instance;
a failed construction leaves the registry unchanged, so the next request
retries the load. -/
theorem c8_registry_cache (load : String → Except String Extractor)
    (proc : Extractor → String → Except String Envelope) (text name : String) :
    (∀ (registry : Registry) (m : Extractor),
      AVAILABLE_MODELS.contains name = true → dictHas registry name = false →
      load name = .ok m →
      process_endpoint load proc registry text (some name) =
        (registry ++ [(name, m)], wrapProc name (proc m text))) ∧
    (∀ (registry : Registry) (m : Extractor) (load2 : String → Except String Extractor),
      AVAILABLE_MODELS.contains name = true → dictGet registry name = some m →
      process_endpoint load2 proc registry text (some name) =
        (registry, wrapProc name (proc m text))) ∧
    (∀ (registry : Registry) (e : String),
      AVAILABLE_MODELS.contains name = true → dictHas registry name = false →
      load name = .error e →
      process_endpoint load proc registry text (some name) =
        (registry, .error ⟨500, "Failed to load model '" ++ name ++ "': " ++ e⟩)) := by
  refine ⟨?_, ?_, ?_⟩
  · intro registry m hc hhas hload
    have h1 : name ∈ AVAILABLE_MODELS := by simpa using hc
    simp [process_endpoint, h1, hhas, hload, dictGet_append_self registry name m hhas]
  · intro registry m load2 hc hget
    have h1 : name ∈ AVAILABLE_MODELS := by simpa using hc
    simp [process_endpoint, h1, dictHas_of_dictGet registry name m hget, hget]
  · intro registry e hc hhas hload
    have h1 : name ∈ AVAILABLE_MODELS := by simpa using hc
    simp [process_endpoint, h1, hhas, hload]

/-- Witness for C8: cold load, cached reuse and failed load at concrete
inputs. -/
theorem c8_registry_cache_witness :
    process_endpoint (fun _ => .ok ⟨1⟩) (fun _ _ => .error "boom") [] "hi" (some "pythia-2.8b") =
      ([("pythia-2.8b", ⟨1⟩)], wrapProc "pythia-2.8b" (Except.error "boom")) ∧
    process_endpoint (fun _ => .error "x") (fun _ _ => .error "boom")
        [("pythia-2.8b", ⟨1⟩)] "hi" (some "pythia-2.8b") =
      ([("pythia-2.8b", ⟨1⟩)], wrapProc "pythia-2.8b" (Except.error "boom")) ∧
    process_endpoint (fun _ => .error "oom") (fun _ _ => .error "boom") [] "hi" (some "pythia-2.8b") =
      ([], .error ⟨500, "Failed to load model '" ++ "pythia-2.8b" ++ "': " ++ "oom"⟩) :=
  ⟨(c8_registry_cache (fun _ => .ok ⟨1⟩) (fun _ _ => .error "boom") "hi" "pythia-2.8b").1
      [] ⟨1⟩ rfl rfl rfl,
   (c8_registry_cache (fun _ => .ok ⟨1⟩) (fun _ _ => .error "boom") "hi" "pythia-2.8b").2.1
      [("pythia-2.8b", ⟨1⟩)] ⟨1⟩ (fun _ => .error "x") rfl rfl,
   (c8_registry_cache (fun _ => .error "oom") (fun _ _ => .error "boom") "hi" "pythia-2.8b").2.2
      [] "oom" rfl rfl rfl⟩

/-- Appending an entry for a different key keeps a key absent. -/
theorem dictHas_append_single (r : Registry) (s k : String) (m : Extractor)
    (h : dictHas r k = false) (hs : s ≠ k) :
    dictHas (r ++ [(s, m)]) k = false := by
  simp only [dictHas, List.any_append, List.any_cons, List.any_nil] at h ⊢
  simp [h, hs]

/-- Processing a request never adds a registry entry for an identifier the
request does not name. -/
theorem dictHas_handle_process (load : String → Except String Extractor)
    (proc : Extractor → String → Except String Envelope)
    (r : Registry) (q : RawRequest) (name : String)
    (hq : resolveModelName q.model_name_field ≠ some name)
    (h : dictHas r name = false) :
    dictHas (handle_process load proc r q).1 name = false := by
  rw [handle_process]
  rcases hres : resolveModelName q.model_name_field with _ | s
  · simpa [process_endpoint] using h
  · have hs : s ≠ name := fun hEq => hq (by rw [hres, hEq])
    simp only [process_endpoint]
    rcases hsup : AVAILABLE_MODELS.contains s with _ | _
    · simpa using h
    · rw [if_neg (by simp)]
      rcases hhas : dictHas r s with _ | _
      · rcases hload : load s with e | m
        · simpa using h
        · simpa using dictHas_append_single r s name m h hs
      · simpa using h

/-- The registry keys stay untouched by requests that do not name them. -/
theorem dictHas_run_requests (load : String → Except String Extractor)
    (proc : Extractor → String → Except String Envelope)
    (r : Registry) (reqs : List RawRequest) (name : String)
    (h : dictHas r name = false)
    (hreqs : ∀ q ∈ reqs, resolveModelName q.model_name_field ≠ some name) :
    dictHas (run_requests load proc r reqs) name = false := by
  induction reqs generalizing r with
  | nil => simpa [run_requests] using h
  | cons q qs ih =>
    rw [run_requests, List.foldl_cons]
    exact ih (handle_process load proc r q).1
      (dictHas_handle_process load proc r q name (hreqs q (List.mem_cons_self q qs)) h)
      (fun q2 hq2 => hreqs q2 (List.mem_cons_of_mem q hq2))

/-- C9 counterexample: the façade constructs the default extractor at module
import, so after startup — before any request has been processed — the
identifier "gpt2-small" already appears in the registry. -/
theorem c9_eager_default_counterexample :
    init_registry (fun _ => .ok ⟨0⟩) = .ok [("gpt2-small", ⟨0⟩)] ∧
      dictHas [("gpt2-small", ⟨0⟩)] "gpt2-small" = true :=
  ⟨rfl, rfl⟩

/-- C9 amended: construction is lazy for every supported identifier other
than the default — "gpt2-small" is loaded eagerly at startup, and any other
identifier is absent from the registry until a request names it. -/
theorem c9_lazy_except_default (load : String → Except String Extractor)
    (proc : Extractor → String → Except String Envelope)
    (r0 : Registry) (reqs : List RawRequest) (name : String)
    (hname : name ≠ "gpt2-small")
    (hinit : init_registry load = .ok r0)
    (hreqs : ∀ q ∈ reqs, resolveModelName q.model_name_field ≠ some name) :
    (∀ m, load "gpt2-small" = .ok m → r0 = [("gpt2-small", m)]) ∧
    dictHas (run_requests load proc r0 reqs) name = false := by
  rcases hl : load "gpt2-small" with e | m
  · rw [init_registry, hl] at hinit
    exact absurd hinit (by simp)
  · rw [init_registry, hl] at hinit
    have hr0 : r0 = [("gpt2-small", m)] := by
      have := (Except.ok.injEq _ _).mp hinit
      exact this.symm
    constructor
    · intro m2 hm2
      have hmm : m = m2 := (Except.ok.injEq _ _).mp hm2
      rw [hr0, hmm]
    · refine dictHas_run_requests load proc r0 reqs name ?_ hreqs
      rw [hr0]
      simp [dictHas, hname.symm]

/-- Witness for C9's amended theorem at a concrete request list. -/
theorem c9_lazy_except_default_witness :
    (∀ m, (fun (_ : String) => (.ok ⟨0⟩ : Except String Extractor)) "gpt2-small" = .ok m →
      [("gpt2-small", (⟨0⟩ : Extractor))] = [("gpt2-small", m)]) ∧
    dictHas (run_requests (fun _ => .ok ⟨0⟩) (fun _ _ => .error "e")
      [("gpt2-small", ⟨0⟩)] [⟨"hi", some (some "gpt2-small")⟩]) "pythia-2.8b" = false :=
  c9_lazy_except_default (fun _ => .ok ⟨0⟩) (fun _ _ => .error "e")
    [("gpt2-small", ⟨0⟩)] [⟨"hi", some (some "gpt2-small")⟩] "pythia-2.8b"
    (by decide) rfl (by decide)

/-- C10: an explicit JSON null `model_name` reaches validation as None and
fails with the 400 unsupported-model message (Python renders the name as
"None"), without substituting the default; an absent field is defaulted to
"gpt2-small". -/
theorem c10_null_model_name (load : String → Except String Extractor)
    (proc : Extractor → String → Except String Envelope)
    (registry : Registry) (text : String) :
    handle_process load proc registry ⟨text, some none⟩ =
      (registry, .error ⟨400, unsupportedDetail none⟩) ∧
    unsupportedDetail none =
      "Model '" ++ "None" ++ "' not supported. Available models: " ++ "gpt2-small, pythia-2.8b" ∧
    handle_process load proc registry ⟨text, none⟩ =
      process_endpoint load proc registry text (some "gpt2-small") :=
  ⟨rfl, rfl, rfl⟩

end AttentionFlow
